import Mathlib

/-!
Shallow embedding of the PDF-chat single-page application
(`src/App.tsx`, `src/types.ts`).

The application's state is the seven React `useState` cells of the `App`
component.  Its two operations are `handleFileUpload` (document ingestion)
and `handleSendMessage` (conversation controller).  Both are asynchronous
and interact with external services (a PDF parser and a streaming chat
service); we model each external interaction by an explicit outcome value
(`UploadOutcome`, `SendOutcome`) and the operations as pure functions of
the prior state and that outcome.  Every React setter call produces one
state in an explicit trace (`sendStates`), so that intermediate,
user-observable states are available to theorems about streaming.

A JavaScript subtlety modelled faithfully: in `handleFileUpload`, the
`try`/`catch` wraps only the synchronous portion (constructing the
`FileReader`, assigning `onload`, calling `readAsArrayBuffer`).  The
`onload` callback is an `async` function invoked later; a rejection inside
it (e.g. `pdfjsLib.getDocument` failing) is an unhandled promise rejection
that the `catch` block never observes.  Hence the `parseFailure` outcome
performs no state updates after the prelude: `isProcessing` stays `true`
and `error` stays unset.
-/

/-- `MessageSender` from `src/types.ts`. -/
inductive MessageSender where
  | USER
  | BOT
deriving DecidableEq, Repr

/-- `ChatMessage` from `src/types.ts`: `{ sender, text }`. -/
structure ChatMessage where
  sender : MessageSender
  text : String
deriving DecidableEq, Repr

/-- An uploaded file: the fields of the DOM `File` object that
`handleFileUpload` reads (`file.name`, `file.type`). -/
structure File where
  name : String
  type : String
deriving DecidableEq, Repr

/-- One entry of the seed history handed to `ai.chats.create`
(`{ role, parts: [{ text }] }`). -/
structure ChatHistoryEntry where
  role : String
  text : String
deriving DecidableEq, Repr

/-- The chat session created by `ai.chats.create`: the model name and the
seed history.  This is the conversation context of the session. -/
structure ChatContext where
  model : String
  history : List ChatHistoryEntry
deriving DecidableEq, Repr

/-- The initial bot acknowledgment string (`initialBotMessage` in
`handleFileUpload`). -/
def initialBotMessage : String :=
  "Documento analizado. Ya puedes hacer preguntas sobre su contenido."

/-- The validation-error message for a non-PDF upload. -/
def invalidFileError : String := "Por favor, selecciona un archivo PDF válido."

/-- The read-failure message (null `FileReader` result). -/
def readFileError : String := "No se pudo leer el archivo."

/-- The processing-failure message of the `catch` block in
`handleFileUpload`. -/
def processFileError : String := "Ocurrió un error al procesar el PDF. Inténtalo de nuevo."

/-- The communication-failure bot message of the `catch` block in
`handleSendMessage`. -/
def commError : String := "Lo siento, un error de comunicación me impidió responder."

/-- The hidden instruction seeded into the chat history, with the extracted
text appended. -/
def contextInstruction (fullText : String) : String :=
  "Basándote EXCLUSIVAMENTE en el siguiente texto, responde a las preguntas del usuario. No uses conocimiento externo. El texto es:\n\n---\n\n" ++ fullText

/-- `ai.chats.create({ model: 'gemini-2.5-flash', history: [...] })` with the
hidden instruction (role `user`) and the fixed acknowledgment (role
`model`). -/
def mkChatContext (fullText : String) : ChatContext :=
  { model := "gemini-2.5-flash"
    history := [ { role := "user", text := contextInstruction fullText },
                 { role := "model", text := initialBotMessage } ] }

/-- The session state: the seven `useState` cells of the `App` component. -/
structure SessionState where
  pdfName : Option String
  isProcessing : Bool
  messages : List ChatMessage
  error : Option String
  chat : Option ChatContext
  userInput : String
  isBotReplying : Bool
deriving DecidableEq, Repr

/-- The initial values of the seven `useState` cells. -/
def initialState : SessionState :=
  { pdfName := none
    isProcessing := false
    messages := []
    error := none
    chat := none
    userInput := ""
    isBotReplying := false }

/-- JavaScript `Array.prototype.join(sep)` on a list of strings. -/
def joinWith (sep : String) : List String → String
  | [] => ""
  | [x] => x
  | x :: xs => x ++ sep ++ joinWith sep (xs)

/-- JavaScript `String.prototype.trim()`: strip leading and trailing
whitespace. -/
def jsTrim (s : String) : String :=
  ⟨((s.data.dropWhile Char.isWhitespace).reverse.dropWhile Char.isWhitespace).reverse⟩

/-- The text of one page: `textContent.items.map(item => item.str).join(' ')`,
taking the page as the list of its items' strings. -/
def pageText (items : List String) : String :=
  joinWith " " items

/-- The page loop of `handleFileUpload`: starting from `fullText = ''`,
for each page (in ascending page order) `fullText += pageText + '\n\n'`. -/
def extractFullText (pages : List (List String)) : String :=
  pages.foldl (fun acc p => acc ++ pageText p ++ "\n\n") ""

/-- Outcome of the asynchronous portion of an ingestion attempt.
`readFailure`: `onload` fires with a null result.  `parseFailure`: the PDF
engine rejects inside the `async` `onload` callback (an unhandled
rejection).  `parsed pages`: extraction succeeds, each page given as the
list of its items' strings. -/
inductive UploadOutcome where
  | readFailure
  | parseFailure
  | parsed (pages : List (List String))
deriving DecidableEq, Repr

/-- `handleFileUpload` of `src/App.tsx` as a function of the prior state,
the file, and the outcome of the asynchronous work.  The type check runs
first; on acceptance, `resetState()` restores every cell to its initial
value, then `isProcessing := true`, `error := none`, `pdfName := file.name`.
The `parseFailure` branch performs no further updates (the rejection is
unhandled, see the module comment). -/
def handleFileUpload (s : SessionState) (f : File) (o : UploadOutcome) : SessionState :=
  if f.type ≠ "application/pdf" then
    { s with error := some invalidFileError }
  else
    let s1 : SessionState :=
      { initialState with isProcessing := true, error := none, pdfName := some f.name }
    match o with
    | .readFailure => { s1 with error := some readFileError, isProcessing := false }
    | .parseFailure => s1
    | .parsed pages =>
        let fullText := extractFullText pages
        { s1 with chat := some (mkChatContext fullText)
                  messages := [{ sender := .BOT, text := initialBotMessage }]
                  isProcessing := false }

/-- `newMessages[newMessages.length - 1].text = botReply`: overwrite the
text of the last message. -/
def setLastText (msgs : List ChatMessage) (t : String) : List ChatMessage :=
  match msgs.getLast? with
  | none => []
  | some m => msgs.dropLast ++ [{ m with text := t }]

/-- The text of the last message of a transcript (empty when the transcript
is empty). -/
def lastText (msgs : List ChatMessage) : String :=
  (msgs.getLastD { sender := .BOT, text := "" }).text

/-- The `for await` loop of `handleSendMessage`: for each chunk,
`botReply += chunk.text` then overwrite the last message's text with the
accumulated `botReply`.  Returns the final transcript. -/
def runStream (msgs : List ChatMessage) (acc : String) : List String → List ChatMessage
  | [] => msgs
  | f :: fs => runStream (setLastText msgs (acc ++ f)) (acc ++ f) fs

/-- The same loop, returning the successive transcript values produced by
each `setMessages` call (one per chunk). -/
def streamUpdates (msgs : List ChatMessage) (acc : String) : List String → List (List ChatMessage)
  | [] => []
  | f :: fs =>
      let m := setLastText msgs (acc ++ f)
      m :: streamUpdates m (acc ++ f) fs

/-- Outcome of the chat interaction in `handleSendMessage`.
`sendFailure`: `chat.sendMessageStream` rejects, before any fragment.
`stream frags midFail`: the stream is obtained and delivers `frags` in
order; when `midFail` is true the stream then fails before completing. -/
inductive SendOutcome where
  | sendFailure
  | stream (frags : List String) (midFail : Bool)
deriving DecidableEq, Repr

/-- `handleSendMessage` of `src/App.tsx`, instrumented: the list of
successive session states, one per React setter call, in source order.
The guard `if (!userInput.trim() || !chat || isBotReplying) return;`
yields the empty trace (no setter runs).  Otherwise: append the USER
message (with the untouched input text), clear the input, set
`isBotReplying`; then, per outcome, either the `catch` appends the fixed
communication-failure BOT message, or the empty BOT placeholder is
appended and the stream chunks are folded in; the `finally` clears
`isBotReplying`. -/
def sendStates (s : SessionState) (o : SendOutcome) : List SessionState :=
  if jsTrim s.userInput = "" ∨ s.chat = none ∨ s.isBotReplying = true then
    []
  else
    let s1 := { s with messages := s.messages ++ [{ sender := .USER, text := s.userInput }] }
    let s2 := { s1 with userInput := "" }
    let s3 := { s2 with isBotReplying := true }
    match o with
    | .sendFailure =>
        let s4 := { s3 with messages := s3.messages ++ [{ sender := .BOT, text := commError }] }
        [s1, s2, s3, s4, { s4 with isBotReplying := false }]
    | .stream frags midFail =>
        let s4 := { s3 with messages := s3.messages ++ [{ sender := .BOT, text := "" }] }
        let fragStates := (streamUpdates s4.messages "" frags).map
          (fun ms => { s4 with messages := ms })
        let mFinal := runStream s4.messages "" frags
        if midFail then
          let s5 := { s4 with messages := mFinal ++ [{ sender := .BOT, text := commError }] }
          [s1, s2, s3, s4] ++ fragStates ++ [s5, { s5 with isBotReplying := false }]
        else
          [s1, s2, s3, s4] ++ fragStates ++ [{ s4 with messages := mFinal, isBotReplying := false }]

/-- The final state of `handleSendMessage`: the last state of the trace
(the prior state when the guard returns early). -/
def handleSendMessage (s : SessionState) (o : SendOutcome) : SessionState :=
  (sendStates s o).getLastD s

/-- Concatenation of a list of stream fragments. -/
def concatFrags : List String → String
  | [] => ""
  | f :: fs => f ++ concatFrags fs

/-- Stated from the spec: the expected successive values of the streamed
reply text, starting from accumulator `acc`: after fragment `f i` the text
is `acc ++ f 1 ++ ... ++ f i`. -/
def accumStates (acc : String) : List String → List String
  | [] => []
  | f :: fs => (acc ++ f) :: accumStates (acc ++ f) fs

/-- Decidable check used to refute the placeholder part of the send
contract on a failing run: no state of the trace has an empty-text BOT
message as its last transcript element. -/
def noEmptyBotLast (s : SessionState) (o : SendOutcome) : Bool :=
  (sendStates s o).all
    (fun st => st.messages.getLastD { sender := .BOT, text := "x" }
        ≠ ({ sender := .BOT, text := "" } : ChatMessage))

/-- A user-driven event of the application: a file upload (with the outcome
of its asynchronous work), a send (with the outcome of the chat call), or
typing in the input field (`setUserInput` via the input's `onChange`). -/
inductive Event where
  | upload (f : File) (o : UploadOutcome)
  | send (o : SendOutcome)
  | typeInput (t : String)

/-- One step of the application's state machine. -/
def step (s : SessionState) : Event → SessionState
  | .upload f o => handleFileUpload s f o
  | .send o => handleSendMessage s o
  | .typeInput t => { s with userInput := t }

/-- The session states reachable from the initial state by user events. -/
inductive Reachable : SessionState → Prop where
  | init : Reachable initialState
  | step {s : SessionState} (h : Reachable s) (e : Event) : Reachable (step s e)

/-- A session state with an active conversation context and pending user
input, satisfying the send preconditions; used to instantiate theorems at
a concrete state. -/
def readyState : SessionState :=
  { initialState with chat := some (mkChatContext "t"), userInput := "hola" }

/-! ## Helper lemmas -/

theorem getLastD_cons_concat {α : Type} (l₁ l₂ : List α) (a d : α) :
    (l₁ ++ (l₂ ++ [a])).getLastD d = a := by
  rw [← List.append_assoc]
  exact List.getLastD_concat _ _ _

theorem setLastText_concat (ms : List ChatMessage) (m : ChatMessage) (t : String) :
    setLastText (ms ++ [m]) t = ms ++ [{ m with text := t }] := by
  simp [setLastText]

theorem lastText_concat (ms : List ChatMessage) (m : ChatMessage) :
    lastText (ms ++ [m]) = m.text := by
  simp [lastText, List.getLastD_concat]

theorem runStream_concat (frags : List String) (ms : List ChatMessage)
    (b : MessageSender) (acc : String) :
    runStream (ms ++ [{ sender := b, text := acc }]) acc frags
      = ms ++ [{ sender := b, text := acc ++ concatFrags frags }] := by
  induction frags generalizing acc with
  | nil => simp [runStream, concatFrags]
  | cons f fs ih =>
      rw [runStream, setLastText_concat]
      show runStream (ms ++ [{ sender := b, text := acc ++ f }]) (acc ++ f) fs = _
      rw [ih (acc ++ f), concatFrags, String.append_assoc]

theorem streamUpdates_map_lastText (frags : List String) (ms : List ChatMessage)
    (m : ChatMessage) (acc : String) :
    (streamUpdates (ms ++ [m]) acc frags).map lastText = accumStates acc frags := by
  induction frags generalizing m acc with
  | nil => rfl
  | cons f fs ih =>
      rw [streamUpdates, accumStates]
      show (setLastText (ms ++ [m]) (acc ++ f) ::
        streamUpdates (setLastText (ms ++ [m]) (acc ++ f)) (acc ++ f) fs).map lastText = _
      rw [setLastText_concat, List.map_cons, lastText_concat, ih]

theorem extractFullText_foldl (pages : List (List String)) (acc : String) :
    pages.foldl (fun acc p => acc ++ pageText p ++ "\n\n") acc
      = acc ++ concatFrags (pages.map (fun p => pageText p ++ "\n\n")) := by
  induction pages generalizing acc with
  | nil => simp [concatFrags, String.append_empty]
  | cons p ps ih =>
      rw [List.foldl_cons, List.map_cons, concatFrags, ih, String.append_assoc,
        String.append_assoc, String.append_assoc]

theorem extractFullText_eq (pages : List (List String)) :
    extractFullText pages = concatFrags (pages.map (fun p => pageText p ++ "\n\n")) := by
  rw [extractFullText, extractFullText_foldl, String.empty_append]

/-! ## Claim theorems -/

/-- C1 (code bug): evaluating an ingestion attempt on a type-valid PDF whose
parse rejects (`parseFailure`) shows the code does not signal the processing
error and does not exit the processing phase: `error` stays `none` and
`isProcessing` stays `true` (the `catch` block cannot observe the rejection
inside the async `onload` callback).  Moreover the document name has been
set and is not cleared — also on a read failure — contradicting the claim
that failures leave the document absent. -/
theorem upload_failure_divergence :
    (handleFileUpload initialState { name := "doc.pdf", type := "application/pdf" }
        .parseFailure).error = none
    ∧ (handleFileUpload initialState { name := "doc.pdf", type := "application/pdf" }
        .parseFailure).isProcessing = true
    ∧ (handleFileUpload initialState { name := "doc.pdf", type := "application/pdf" }
        .parseFailure).pdfName = some "doc.pdf"
    ∧ (handleFileUpload initialState { name := "doc.pdf", type := "application/pdf" }
        .readFailure).pdfName = some "doc.pdf"
    ∧ (handleFileUpload initialState { name := "doc.pdf", type := "application/pdf" }
        .readFailure).error = some readFileError := by
  exact ⟨rfl, rfl, rfl, rfl, rfl⟩

/-- C2 (counterexample): for a two-page PDF with page texts `"a"` and `"b"`
the extracted text seeded into the conversation context is
`"a\n\nb\n\n"` — a double newline after every page, including the last —
and not `"a\n\nb"` as the claim (one separator between consecutive pages,
none trailing) requires. -/
theorem extract_trailing_separator_cex :
    extractFullText [["a"], ["b"]] = "a\n\nb\n\n"
    ∧ extractFullText [["a"], ["b"]] ≠ "a" ++ "\n\n" ++ "b"
    ∧ (handleFileUpload initialState { name := "doc.pdf", type := "application/pdf" }
        (.parsed [["a"], ["b"]])).chat = some (mkChatContext "a\n\nb\n\n") := by
  exact ⟨rfl, by decide, rfl⟩

/-- C2 (amended): for every valid PDF, the text seeded into the conversation
context is the concatenation, in ascending page order, of each page's text
followed by a double-newline separator — i.e. N separators, one after every
page including the last. -/
theorem upload_seeds_trailing_separated_text (s : SessionState) (f : File)
    (pages : List (List String)) (h : f.type = "application/pdf") :
    (handleFileUpload s f (.parsed pages)).chat
      = some (mkChatContext (concatFrags (pages.map (fun p => pageText p ++ "\n\n")))) := by
  rw [← extractFullText_eq]
  simp [handleFileUpload, h]

/-- Witness for the amended C2 at a concrete two-page input. -/
theorem upload_seeds_trailing_separated_text_witness :
    ({ name := "doc.pdf", type := "application/pdf" } : File).type = "application/pdf"
    ∧ (handleFileUpload initialState { name := "doc.pdf", type := "application/pdf" }
        (.parsed [["a"], ["b"]])).chat
        = some (mkChatContext (concatFrags ([["a"], ["b"]].map (fun p => pageText p ++ "\n\n")))) :=
  ⟨rfl, upload_seeds_trailing_separated_text initialState _ [["a"], ["b"]] rfl⟩

/-- C4: after a successful ingestion the transcript is exactly one BOT
message carrying the fixed acknowledgment string, the conversation context
is present, and the processing flag is false. -/
theorem upload_success_transcript (s : SessionState) (f : File)
    (pages : List (List String)) (h : f.type = "application/pdf") :
    (handleFileUpload s f (.parsed pages)).messages
        = [{ sender := .BOT, text := initialBotMessage }]
    ∧ (handleFileUpload s f (.parsed pages)).chat
        = some (mkChatContext (extractFullText pages))
    ∧ (handleFileUpload s f (.parsed pages)).isProcessing = false := by
  simp [handleFileUpload, h]

/-- Witness for C4 at a concrete one-page input. -/
theorem upload_success_transcript_witness :
    ({ name := "doc.pdf", type := "application/pdf" } : File).type = "application/pdf"
    ∧ ((handleFileUpload initialState { name := "doc.pdf", type := "application/pdf" }
          (.parsed [["hola"]])).messages
        = [{ sender := .BOT, text := initialBotMessage }]
      ∧ (handleFileUpload initialState { name := "doc.pdf", type := "application/pdf" }
          (.parsed [["hola"]])).chat
        = some (mkChatContext (extractFullText [["hola"]]))
      ∧ (handleFileUpload initialState { name := "doc.pdf", type := "application/pdf" }
          (.parsed [["hola"]])).isProcessing = false) :=
  ⟨rfl, upload_success_transcript initialState _ [["hola"]] rfl⟩

/-- C7: uploading a file whose declared media type is not
`application/pdf` only sets the error field to the fixed invalid-file
message; document, context, transcript, processing flag and replying flag
are untouched. -/
theorem upload_invalid_type_frame (s : SessionState) (f : File) (o : UploadOutcome)
    (h : f.type ≠ "application/pdf") :
    handleFileUpload s f o = { s with error := some invalidFileError } := by
  simp [handleFileUpload, h]

/-- Witness for C7 at a concrete non-PDF input. -/
theorem upload_invalid_type_frame_witness :
    ({ name := "notes.txt", type := "text/plain" } : File).type ≠ "application/pdf"
    ∧ handleFileUpload initialState { name := "notes.txt", type := "text/plain" } .readFailure
        = { initialState with error := some invalidFileError } :=
  ⟨by decide, upload_invalid_type_frame initialState _ .readFailure (by decide)⟩

theorem getLastD_concat₂ {α : Type} (l₁ l₂ : List α) (a b d : α) :
    (l₁ ++ (l₂ ++ [a, b])).getLastD d = b := by
  have h : l₁ ++ (l₂ ++ [a, b]) = (l₁ ++ (l₂ ++ [a])) ++ [b] := by simp
  rw [h]
  exact List.getLastD_concat _ _ _

theorem getLast?_cons_append_singleton {α : Type} (a x : α) (l : List α) :
    (a :: (l ++ [x])).getLast? = some x := by
  rw [← List.cons_append]
  exact List.getLast?_concat _

theorem getLast?_cons_append_pair {α : Type} (a x y : α) (l : List α) :
    (a :: (l ++ [x, y])).getLast? = some y := by
  have h : a :: (l ++ [x, y]) = (a :: (l ++ [x])) ++ [y] := by simp
  rw [h]
  exact List.getLast?_concat _

theorem sendGuard_false {s : SessionState} (h1 : jsTrim s.userInput ≠ "")
    (h2 : s.chat ≠ none) (h3 : s.isBotReplying = false) :
    ¬(jsTrim s.userInput = "" ∨ s.chat = none ∨ s.isBotReplying = true) := by
  rintro (h | h | h)
  · exact h1 h
  · exact h2 h
  · rw [h3] at h
    exact Bool.false_ne_true h

theorem handleSendMessage_frame (s : SessionState) (o : SendOutcome) :
    (handleSendMessage s o).chat = s.chat ∧ (handleSendMessage s o).pdfName = s.pdfName := by
  unfold handleSendMessage sendStates
  by_cases hg : jsTrim s.userInput = "" ∨ s.chat = none ∨ s.isBotReplying = true
  · rw [if_pos hg]
    exact ⟨rfl, rfl⟩
  · rw [if_neg hg]
    cases o with
    | sendFailure => simp
    | stream frags midFail =>
        cases midFail <;>
          simp [getLast?_cons_append_singleton, getLast?_cons_append_pair]

/-- C5: when a send precondition is violated (empty trimmed input, or no
conversation context, or a reply already streaming) the operation performs
no state update at all: the trace of setter calls is empty and the final
state is the prior state. -/
theorem send_precondition_noop (s : SessionState) (o : SendOutcome)
    (h : jsTrim s.userInput = "" ∨ s.chat = none ∨ s.isBotReplying = true) :
    sendStates s o = [] ∧ handleSendMessage s o = s := by
  have e : sendStates s o = [] := by
    unfold sendStates
    rw [if_pos h]
  refine ⟨e, ?_⟩
  unfold handleSendMessage
  rw [e]
  rfl

/-- Witness for C5 at the initial state (empty input). -/
theorem send_precondition_noop_witness :
    (jsTrim initialState.userInput = "" ∨ initialState.chat = none
      ∨ initialState.isBotReplying = true)
    ∧ sendStates initialState .sendFailure = []
    ∧ handleSendMessage initialState .sendFailure = initialState :=
  ⟨Or.inl rfl, (send_precondition_noop initialState .sendFailure (Or.inl rfl)).1,
    (send_precondition_noop initialState .sendFailure (Or.inl rfl)).2⟩

/-- C6: when the chat service's send call fails before any fragment, the
transcript gains the USER message followed by exactly one BOT message with
the fixed communication-failure notice, replying ends false, and document
and context are unchanged. -/
theorem send_failure_appends_notice (s : SessionState)
    (h1 : jsTrim s.userInput ≠ "") (h2 : s.chat ≠ none) (h3 : s.isBotReplying = false) :
    (handleSendMessage s .sendFailure).messages
        = s.messages ++ [{ sender := .USER, text := s.userInput },
                         { sender := .BOT, text := commError }]
    ∧ (handleSendMessage s .sendFailure).isBotReplying = false
    ∧ (handleSendMessage s .sendFailure).pdfName = s.pdfName
    ∧ (handleSendMessage s .sendFailure).chat = s.chat := by
  have hg := sendGuard_false h1 h2 h3
  unfold handleSendMessage sendStates
  rw [if_neg hg]
  simp

/-- Witness for C6 at a concrete ready state. -/
theorem send_failure_appends_notice_witness :
    jsTrim readyState.userInput ≠ "" ∧ readyState.chat ≠ none
    ∧ readyState.isBotReplying = false
    ∧ ((handleSendMessage readyState .sendFailure).messages
        = readyState.messages ++ [{ sender := .USER, text := readyState.userInput },
                                  { sender := .BOT, text := commError }]
      ∧ (handleSendMessage readyState .sendFailure).isBotReplying = false
      ∧ (handleSendMessage readyState .sendFailure).pdfName = readyState.pdfName
      ∧ (handleSendMessage readyState .sendFailure).chat = readyState.chat) :=
  ⟨by decide, by decide, rfl,
    send_failure_appends_notice readyState (by decide) (by decide) rfl⟩

/-- C10: when the reply stream fails after delivering fragments `frags`,
the partially accumulated BOT reply (text: the concatenation of the
delivered fragments) stays in the transcript and a separate BOT message
with the fixed communication-failure notice is appended after it, so the
transcript ends with two consecutive BOT messages; replying ends false. -/
theorem mid_stream_failure_appends_notice (s : SessionState) (frags : List String)
    (h1 : jsTrim s.userInput ≠ "") (h2 : s.chat ≠ none) (h3 : s.isBotReplying = false) :
    (handleSendMessage s (.stream frags true)).messages
        = s.messages ++ [{ sender := .USER, text := s.userInput },
                         { sender := .BOT, text := concatFrags frags },
                         { sender := .BOT, text := commError }]
    ∧ (handleSendMessage s (.stream frags true)).isBotReplying = false := by
  have hg := sendGuard_false h1 h2 h3
  unfold handleSendMessage sendStates
  rw [if_neg hg]
  have hrun : runStream (s.messages
        ++ [{ sender := .USER, text := s.userInput },
            { sender := MessageSender.BOT, text := "" }]) "" frags
      = s.messages ++ [{ sender := .USER, text := s.userInput },
          { sender := MessageSender.BOT, text := "" ++ concatFrags frags }] := by
    have h := runStream_concat frags
      (s.messages ++ [{ sender := .USER, text := s.userInput }]) MessageSender.BOT ""
    simpa using h
  simp [getLast?_cons_append_singleton, getLast?_cons_append_pair, hrun,
    String.empty_append]

/-- Witness for C10 at a concrete ready state and fragment list. -/
theorem mid_stream_failure_appends_notice_witness :
    jsTrim readyState.userInput ≠ "" ∧ readyState.chat ≠ none
    ∧ readyState.isBotReplying = false
    ∧ ((handleSendMessage readyState (.stream ["Ho", "la"] true)).messages
        = readyState.messages ++ [{ sender := .USER, text := readyState.userInput },
                                  { sender := .BOT, text := concatFrags ["Ho", "la"] },
                                  { sender := .BOT, text := commError }]
      ∧ (handleSendMessage readyState (.stream ["Ho", "la"] true)).isBotReplying = false) :=
  ⟨by decide, by decide, rfl,
    mid_stream_failure_appends_notice readyState ["Ho", "la"] (by decide) (by decide) rfl⟩

theorem getLastD_append_pair {α : Type} (l : List α) (x y d : α) :
    (l ++ [x, y]).getLastD d = y := by
  have h : l ++ [x, y] = (l ++ [x]) ++ [y] := by simp
  rw [h]
  exact List.getLastD_concat _ _ _

theorem dropLast_cons_concat {α : Type} (a x : α) (l : List α) :
    (a :: (l ++ [x])).dropLast = a :: l := by
  rw [← List.cons_append]
  exact List.dropLast_concat

theorem lastText_append_pair (l : List ChatMessage) (x y : ChatMessage) :
    lastText (l ++ [x, y]) = y.text := by
  rw [lastText, getLastD_append_pair]

/-- C3: during a successfully completed reply stream delivering `frags`,
the text of the last transcript message passes through exactly the states
`""`, `f1`, `f1 ++ f2`, ..., in arrival order (one state per fragment):
these are the states from the placeholder append up to the last fragment
(the trailing trace entry only clears the replying flag and is dropped),
and the final value is the concatenation of all fragments. -/
theorem stream_reply_states (s : SessionState) (frags : List String)
    (h1 : jsTrim s.userInput ≠ "") (h2 : s.chat ≠ none) (h3 : s.isBotReplying = false) :
    (((sendStates s (.stream frags false)).drop 3).dropLast).map
        (fun st => lastText st.messages)
      = "" :: accumStates "" frags
    ∧ lastText (handleSendMessage s (.stream frags false)).messages = concatFrags frags := by
  have hg := sendGuard_false h1 h2 h3
  have hupd : (streamUpdates (s.messages
        ++ [{ sender := MessageSender.USER, text := s.userInput },
            { sender := MessageSender.BOT, text := "" }]) "" frags).map lastText
      = accumStates "" frags := by
    have h := streamUpdates_map_lastText frags
      (s.messages ++ [{ sender := MessageSender.USER, text := s.userInput }])
      { sender := MessageSender.BOT, text := "" } ""
    simpa using h
  have hrun : runStream (s.messages
        ++ [{ sender := MessageSender.USER, text := s.userInput },
            { sender := MessageSender.BOT, text := "" }]) "" frags
      = s.messages ++ [{ sender := MessageSender.USER, text := s.userInput },
          { sender := MessageSender.BOT, text := "" ++ concatFrags frags }] := by
    have h := runStream_concat frags
      (s.messages ++ [{ sender := MessageSender.USER, text := s.userInput }])
      MessageSender.BOT ""
    simpa using h
  constructor
  · unfold sendStates
    rw [if_neg hg]
    simp [dropLast_cons_concat, List.map_map, lastText_append_pair]
    exact hupd
  · unfold handleSendMessage sendStates
    rw [if_neg hg]
    simp [getLast?_cons_append_singleton, hrun, String.empty_append, lastText_append_pair]

/-- Witness for C3: the spec example, fragments `Hola`, `, `, `mundo`. -/
theorem stream_reply_states_witness :
    jsTrim readyState.userInput ≠ "" ∧ readyState.chat ≠ none
    ∧ readyState.isBotReplying = false
    ∧ ((((sendStates readyState (.stream ["Hola", ", ", "mundo"] false)).drop 3).dropLast).map
          (fun st => lastText st.messages)
        = "" :: accumStates "" ["Hola", ", ", "mundo"]
      ∧ lastText (handleSendMessage readyState
          (.stream ["Hola", ", ", "mundo"] false)).messages
        = concatFrags ["Hola", ", ", "mundo"]) :=
  ⟨by decide, by decide, rfl,
    stream_reply_states readyState ["Hola", ", ", "mundo"] (by decide) (by decide) rfl⟩

/-- C9 (counterexample): when the chat service's send call itself fails, no
state of the run ever has an empty-text BOT placeholder as the last
transcript element — the placeholder is appended only after the stream
request resolves — refuting the claim that every precondition-satisfying
invocation appends the placeholder. -/
theorem send_failure_no_placeholder_cex :
    sendStates readyState .sendFailure ≠ []
    ∧ noEmptyBotLast readyState .sendFailure = true := by
  exact ⟨by decide, by decide⟩

/-- C9 (amended): a precondition-satisfying send whose stream request
succeeds first appends the USER message with the literal, untouched input
text, then clears the input field, then sets the replying flag, and then
appends the empty-text BOT placeholder as the new last transcript element
(these are the first four states of the run, in order). -/
theorem send_prelude_and_placeholder (s : SessionState) (frags : List String)
    (midFail : Bool) (h1 : jsTrim s.userInput ≠ "") (h2 : s.chat ≠ none)
    (h3 : s.isBotReplying = false) :
    (sendStates s (.stream frags midFail)).take 4
      = [ { s with messages := s.messages ++ [{ sender := .USER, text := s.userInput }] },
          { s with messages := s.messages ++ [{ sender := .USER, text := s.userInput }],
                   userInput := "" },
          { s with messages := s.messages ++ [{ sender := .USER, text := s.userInput }],
                   userInput := "", isBotReplying := true },
          { s with messages := s.messages ++ [{ sender := .USER, text := s.userInput },
                                              { sender := .BOT, text := "" }],
                   userInput := "", isBotReplying := true } ] := by
  have hg := sendGuard_false h1 h2 h3
  unfold sendStates
  rw [if_neg hg]
  cases midFail <;> simp

/-- Witness for the amended C9 at a concrete ready state. -/
theorem send_prelude_and_placeholder_witness :
    jsTrim readyState.userInput ≠ "" ∧ readyState.chat ≠ none
    ∧ readyState.isBotReplying = false
    ∧ (sendStates readyState (.stream ["Ho"] false)).take 4
      = [ { readyState with
              messages := readyState.messages
                ++ [{ sender := .USER, text := readyState.userInput }] },
          { readyState with
              messages := readyState.messages
                ++ [{ sender := .USER, text := readyState.userInput }],
              userInput := "" },
          { readyState with
              messages := readyState.messages
                ++ [{ sender := .USER, text := readyState.userInput }],
              userInput := "", isBotReplying := true },
          { readyState with
              messages := readyState.messages
                ++ [{ sender := .USER, text := readyState.userInput },
                    { sender := .BOT, text := "" }],
              userInput := "", isBotReplying := true } ] :=
  ⟨by decide, by decide, rfl,
    send_prelude_and_placeholder readyState ["Ho"] false (by decide) (by decide) rfl⟩

/-- C8 (counterexample): after a read failure the document name remains
present while the conversation context is absent and the ingestion attempt
has finished (processing is false) — a reachable state refuting the
claimed iff between context presence and document presence. -/
theorem doc_without_context_cex :
    Reachable (handleFileUpload initialState
        { name := "doc.pdf", type := "application/pdf" } .readFailure)
    ∧ (handleFileUpload initialState
        { name := "doc.pdf", type := "application/pdf" } .readFailure).pdfName
        = some "doc.pdf"
    ∧ (handleFileUpload initialState
        { name := "doc.pdf", type := "application/pdf" } .readFailure).chat = none
    ∧ (handleFileUpload initialState
        { name := "doc.pdf", type := "application/pdf" } .readFailure).isProcessing
        = false :=
  ⟨Reachable.step Reachable.init
      (Event.upload { name := "doc.pdf", type := "application/pdf" } .readFailure),
    rfl, rfl, rfl⟩

/-- C8 (amended): in every reachable session state, if the conversation
context is present then the document name is present (the converse fails:
after a failed ingestion the document name may remain while the context is
absent). -/
theorem context_implies_document {s : SessionState} (h : Reachable s) :
    s.chat.isSome = true → s.pdfName.isSome = true := by
  induction h with
  | init =>
      intro hc
      simp [initialState] at hc
  | @step s' hr e ih =>
      cases e with
      | typeInput t =>
          intro hc
          simp only [step] at hc ⊢
          exact ih hc
      | send o =>
          intro hc
          simp only [step] at hc ⊢
          have hf := handleSendMessage_frame s' o
          rw [hf.2]
          exact ih (hf.1 ▸ hc)
      | upload f o =>
          intro hc
          simp only [step] at hc ⊢
          unfold handleFileUpload at hc ⊢
          by_cases ht : f.type ≠ "application/pdf"
          · rw [if_pos ht] at hc ⊢
            simp only at hc ⊢
            exact ih hc
          · rw [if_neg ht]
            cases o <;> simp

/-- Witness for the amended C8 at a concrete reachable state with a
context. -/
theorem context_implies_document_witness :
    Reachable (handleFileUpload initialState
        { name := "doc.pdf", type := "application/pdf" } (.parsed [["hola"]]))
    ∧ (handleFileUpload initialState
        { name := "doc.pdf", type := "application/pdf" } (.parsed [["hola"]])).chat.isSome
        = true
    ∧ (handleFileUpload initialState
        { name := "doc.pdf", type := "application/pdf" } (.parsed [["hola"]])).pdfName.isSome
        = true :=
  ⟨Reachable.step Reachable.init
      (Event.upload { name := "doc.pdf", type := "application/pdf" } (.parsed [["hola"]])),
    rfl,
    context_implies_document
      (Reachable.step Reachable.init
        (Event.upload { name := "doc.pdf", type := "application/pdf" } (.parsed [["hola"]])))
      rfl⟩
